import Mathlib

/-!
# PyMine codec layer: a shallow embedding

This file embeds, in Lean, the parts of the PyMine server relevant to its
specification: the query-protocol buffer (`pymine/logic/query.py`, class
`QueryBuffer`), the query-protocol datagram handler
(`QueryServer.handle_packet`), the chunk-data section encoder
(`pymine/net/packets/play/chunk.py`, `PlayChunkData.encode`), and the
packet base class (`src/types/packet.py`, `Packet.__init__`).

Modelling conventions:
* Python `bytes` values are `List Nat` with every element < 256.
* Python `str` values are `List Nat` of Unicode code points; `latin-1`
  encoding maps a code point < 256 to the byte of the same value, so on
  the strings appearing here encoding and decoding are the identity
  embedding (helper `latin1` turns a Lean string literal into its code
  points).
* Python `int` is `Int` (arbitrary precision).
* `struct.unpack` raises `struct.error` when the byte string has the
  wrong length, and `struct.pack` range-checks its argument; a raising
  decode is `none`.  The handler catches every exception and drops the
  datagram, so a `none` anywhere in parsing is "no response".
* The `while True` loop of `unpack_string` is modelled with explicit
  fuel: `none` means the loop did not finish within `fuel` iterations,
  so a result that is `none` for every fuel is a non-terminating loop.
-/

/-- `QueryBuffer` state: the internal bytes object `buf` and the read
position `pos` (`query.py`, lines 31-33). -/
structure QueryBuffer where
  buf : List Nat
  pos : Nat
deriving DecidableEq, Repr

namespace QueryBuffer

/-- `QueryBuffer.write`: appends data to the buffer (`query.py`, line 42). -/
def write (q : QueryBuffer) (data : List Nat) : QueryBuffer :=
  { q with buf := q.buf ++ data }

/-- `QueryBuffer.read` (`query.py`, lines 44-60).  With `length = None` the
source sets `length = len(self.buf)` and returns `self.buf[self.pos:]`;
with `length = n` it returns the slice `self.buf[self.pos : self.pos + n]`
(Python slicing truncates at the end of the sequence and never fails).
The `finally` block then runs `self.pos += length` unconditionally. -/
def read (q : QueryBuffer) (length : Option Nat) : List Nat × QueryBuffer :=
  match length with
  | none => (q.buf.drop q.pos, { q with pos := q.pos + q.buf.length })
  | some n => ((q.buf.drop q.pos).take n, { q with pos := q.pos + n })

/-- `QueryBuffer.reset` (`query.py`, line 65). -/
def reset (q : QueryBuffer) : QueryBuffer :=
  { q with pos := 0 }

/-- `QueryBuffer.pack_magic` (`query.py`, line 77): the literal bytes
`b"\xFE\xFD"`. -/
def pack_magic : List Nat := [0xFE, 0xFD]

/-- Big-endian value of a byte string (`struct.unpack(">H")` /
the high bytes of `">i"`). -/
def beNat (b : List Nat) : Nat :=
  b.foldl (fun a c => a * 256 + c) 0

/-- `QueryBuffer.unpack_magic` (`query.py`, lines 81-87): reads 2 bytes,
interprets them as a big-endian unsigned 16-bit integer
(`struct.unpack(">H", ...)`, which raises if not exactly 2 bytes were
read), and raises `ValueError` unless the value equals `65277`. -/
def unpack_magic (q : QueryBuffer) : Option (Nat × QueryBuffer) :=
  let r := q.read (some 2)
  if r.1.length = 2 then
    let magic := beNat r.1
    if magic = 65277 then some (magic, r.2) else none
  else none

/-- `QueryBuffer.pack_string` (`query.py`, lines 89-91):
`bytes(str(string), "latin-1") + b"\x00"`.  On a `str` argument `str` is
the identity and latin-1 encoding is the identity embedding of code
points < 256 (the model does not represent the `UnicodeEncodeError` on
code points ≥ 256; every use below is over latin-1 data). -/
def pack_string (string : List Nat) : List Nat :=
  string ++ [0]

/-- Loop body of `QueryBuffer.unpack_string` (`query.py`, lines 93-102):
`out = b""`, then repeatedly `b = self.read(1)`; stop and return `out`
when `b == b"\x00"`, otherwise `out += b` and continue.  `fuel` bounds
the number of iterations of the source's unbounded `while True`;
`none` means the loop has not ended after `fuel` iterations. -/
def unpack_string_loop (fuel : Nat) (q : QueryBuffer) (out : List Nat) :
    Option (List Nat × QueryBuffer) :=
  match fuel with
  | 0 => none
  | fuel + 1 =>
    let r := q.read (some 1)
    if r.1 = [0] then some (out, r.2)
    else unpack_string_loop fuel r.2 (out ++ r.1)

/-- `QueryBuffer.unpack_string` (`query.py`, lines 93-102), fuel-bounded.
The final `out.decode("latin-1")` maps each byte to the code point of the
same value, i.e. is the identity embedding under our conventions. -/
def unpack_string (fuel : Nat) (q : QueryBuffer) : Option (List Nat × QueryBuffer) :=
  unpack_string_loop fuel q []

/-- `QueryBuffer.pack_int32` (`query.py`, lines 104-106):
`struct.pack(">i", num)`, big-endian two's complement on 4 bytes.  The
source raises on numbers outside `[-2^31, 2^31)`; every call site below
passes a value decoded by `unpack_int32`, which is inside the range, on
which the two's-complement encoding below agrees with `struct.pack`. -/
def pack_int32 (num : Int) : List Nat :=
  let u : Nat := (num % 4294967296).toNat
  [u / 16777216 % 256, u / 65536 % 256, u / 256 % 256, u % 256]

/-- Signed big-endian 32-bit value of 4 bytes (`struct.unpack(">i")`). -/
def sint32 (b : List Nat) : Int :=
  let u := beNat b
  if u < 2147483648 then (u : Int) else (u : Int) - 4294967296

/-- `QueryBuffer.unpack_int32` (`query.py`, lines 108-109): reads 4 bytes
and unpacks them as signed big-endian (`struct.unpack` raises unless
exactly 4 bytes were obtained). -/
def unpack_int32 (q : QueryBuffer) : Option (Int × QueryBuffer) :=
  let r := q.read (some 4)
  if r.1.length = 4 then some (sint32 r.1, r.2) else none

/-- `QueryBuffer.pack_byte` (`query.py`, lines 111-113):
`struct.pack(">b", byte)`.  The source raises outside `[-128, 127]`;
both call sites pass `9` or `0`. -/
def pack_byte (byte : Int) : List Nat :=
  [(byte % 256).toNat]

/-- `QueryBuffer.unpack_byte` (`query.py`, lines 115-116): reads 1 byte,
unpacks it as signed (`struct.unpack(">b")`). -/
def unpack_byte (q : QueryBuffer) : Option (Int × QueryBuffer) :=
  let r := q.read (some 1)
  if r.1.length = 1 then
    let b := r.1.headD 0
    some (if b < 128 then (b : Int) else (b : Int) - 256, r.2)
  else none

end QueryBuffer

/-- Code points of a Lean string literal; on latin-1 text this equals the
bytes of its latin-1 encoding. -/
def latin1 (s : String) : List Nat :=
  s.data.map Char.toNat

/-- `str()` of a Python int: its decimal representation (with a leading
minus sign for negatives), as code points; `toString` on `Int` produces
exactly Python's digits. -/
def str_int (n : Int) : List Nat :=
  latin1 (toString n)

/-- Read-only server metadata feeding the stat responses: `motd`,
`level_name` and `max_players` from `server.conf`, `version` from
`server.meta`, `numplayers` as `len(server.cache.states)`, and the
listening `addr`/`port` (`query.py`, lines 191-233).  String-valued
fields are stored as their latin-1 code points; int-valued ones as
integers (they pass through `str()` inside `pack_string`). -/
structure ServerInfo where
  motd : List Nat
  version : List Nat
  level_name : List Nat
  numplayers : Int
  max_players : Int
  port : Int
  addr : List Nat
deriving DecidableEq, Repr

/-- `dict.__setitem__` on the challenge cache (an insertion-ordered map
from remote address to stored token): overwrite the entry in place if
the key is present, otherwise append it. -/
def dict_set : List (Nat × Int) → Nat → Int → List (Nat × Int)
  | [], k, v => [(k, v)]
  | (k', v') :: t, k, v =>
    if k' = k then (k, v) :: t else (k', v') :: dict_set t k v

/-- The parsing prefix of `QueryServer.handle_packet` (`query.py`, lines
168-177): `unpack_magic` (any `ValueError` is caught and the datagram
dropped), `unpack_byte` for the packet type, `unpack_int32` for the
session id, and, unless `buf.buf[buf.pos:]` is empty (in which case the
challenge token is `0`), `unpack_int32` for the challenge token.  `none`
models any raised exception: `handle_packet` catches everything and
produces no response. -/
def parse_request (data : List Nat) : Option (Int × Int × Int × QueryBuffer) :=
  match QueryBuffer.unpack_magic ⟨data, 0⟩ with
  | none => none
  | some (_, q1) =>
    match QueryBuffer.unpack_byte q1 with
    | none => none
    | some (packet_type, q2) =>
      match QueryBuffer.unpack_int32 q2 with
      | none => none
      | some (session_id, q3) =>
        if q3.buf.drop q3.pos = [] then some (packet_type, session_id, 0, q3)
        else
          match QueryBuffer.unpack_int32 q3 with
          | none => none
          | some (challenge_token, q4) =>
            some (packet_type, session_id, challenge_token, q4)

/-- The constant bytes `b"\x73\x70\x6C\x69\x74\x6E\x75\x6D\x00\x80\x00"`
("splitnum" marker) opening the full-stat body (`query.py`, line 195). -/
def splitnum_padding : List Nat :=
  [0x73, 0x70, 0x6C, 0x69, 0x74, 0x6E, 0x75, 0x6D, 0x00, 0x80, 0x00]

/-- The constant bytes `b"\x01\x70\x6C\x61\x79\x65\x72\x5F\x00\x00"`
("player_" marker) introducing the player section (`query.py`, line 216). -/
def player_padding : List Nat :=
  [0x01, 0x70, 0x6C, 0x61, 0x79, 0x65, 0x72, 0x5F, 0x00, 0x00]

/-- The literal bytes `b"Penis\x00\x00"` the source emits after the
player marker (`query.py`, line 217).  Its comment reads "should be
player section, this means no players online", but the bytes list one
player named "Penis" followed by the section terminator; an empty player
section would be the single byte `b"\x00"`. -/
def player_section : List Nat :=
  [0x50, 0x65, 0x6E, 0x69, 0x73, 0x00, 0x00]

/-- The full-stat response body (`query.py`, lines 192-218). -/
def full_stat (packet_type session_id : Int) (info : ServerInfo) : List Nat :=
  QueryBuffer.pack_byte packet_type ++ QueryBuffer.pack_int32 session_id ++
  splitnum_padding ++
  QueryBuffer.pack_string (latin1 "hostname") ++ QueryBuffer.pack_string info.motd ++
  QueryBuffer.pack_string (latin1 "game type") ++ QueryBuffer.pack_string (latin1 "SMP") ++
  QueryBuffer.pack_string (latin1 "game_id") ++ QueryBuffer.pack_string (latin1 "MINECRAFT") ++
  QueryBuffer.pack_string (latin1 "version") ++ QueryBuffer.pack_string info.version ++
  QueryBuffer.pack_string (latin1 "plugins") ++ QueryBuffer.pack_string (latin1 "") ++
  QueryBuffer.pack_string (latin1 "map") ++ QueryBuffer.pack_string info.level_name ++
  QueryBuffer.pack_string (latin1 "numplayers") ++ QueryBuffer.pack_string (str_int info.numplayers) ++
  QueryBuffer.pack_string (latin1 "maxplayers") ++ QueryBuffer.pack_string (str_int info.max_players) ++
  QueryBuffer.pack_string (latin1 "hostport") ++ QueryBuffer.pack_string (str_int info.port) ++
  QueryBuffer.pack_string (latin1 "hostip") ++ QueryBuffer.pack_string info.addr ++
  [0x00] ++
  player_padding ++
  player_section

/-- The basic-stat response body (`query.py`, lines 220-230). -/
def basic_stat (packet_type session_id : Int) (info : ServerInfo) : List Nat :=
  QueryBuffer.pack_byte packet_type ++ QueryBuffer.pack_int32 session_id ++
  QueryBuffer.pack_string info.motd ++
  QueryBuffer.pack_string (latin1 "SMP") ++
  QueryBuffer.pack_string info.level_name ++
  QueryBuffer.pack_string (str_int info.numplayers) ++
  QueryBuffer.pack_string (str_int info.max_players) ++
  QueryBuffer.pack_string (str_int info.port) ++
  QueryBuffer.pack_string info.addr

/-- `QueryServer.handle_packet` (`query.py`, lines 167-240) as a pure
transition: from the challenge cache, the sender's remote address, the
server metadata and the datagram bytes, to the updated cache and the
outbound datagram (if any).  Type 9 stores the received token for the
remote and answers with the echo packet; type 0 answers with a stat
packet only when the stored token equals the request's, choosing full
stat when the next 4 bytes of the request are exactly four zero bytes;
anything else (including every parsing exception) drops the datagram. -/
def handle_packet (challenge_cache : List (Nat × Int)) (remote : Nat)
    (info : ServerInfo) (data : List Nat) :
    List (Nat × Int) × Option (List Nat) :=
  match parse_request data with
  | none => (challenge_cache, none)
  | some (packet_type, session_id, challenge_token, q) =>
    if packet_type = 9 then
      (dict_set challenge_cache remote challenge_token,
       some (QueryBuffer.pack_byte 9 ++ QueryBuffer.pack_int32 session_id ++
             QueryBuffer.pack_string (str_int challenge_token)))
    else if packet_type = 0 then
      if List.lookup remote challenge_cache ≠ some challenge_token then
        (challenge_cache, none)
      else if (q.buf.drop q.pos).take 4 = [0, 0, 0, 0] then
        (challenge_cache, some (full_stat packet_type session_id info))
      else
        (challenge_cache, some (basic_stat packet_type session_id info))
    else (challenge_cache, none)

/-- A concrete server-metadata record, for evaluating the handler. -/
def demo_info : ServerInfo :=
  { motd := latin1 "A", version := latin1 "1", level_name := latin1 "w",
    numplayers := 0, max_players := 20, port := 25565, addr := latin1 "h" }

/-- The loop body of `PlayChunkData.encode` (`chunk.py`, lines 71-75):
given the running `(mask, chunk_sections_buffer)` accumulator and one
`(y, section)` item, set bit `y` of the mask and append the section's
packed payload when `y >= 0`, and skip the item otherwise. -/
def encode_sections_step (acc : Nat × List Nat) (ys : Int × List Nat) :
    Nat × List Nat :=
  if 0 ≤ ys.1 then (acc.1 ||| (1 <<< ys.1.toNat), acc.2 ++ ys.2) else acc

/-- The bitmask/section-buffer loop of `PlayChunkData.encode` (`chunk.py`,
lines 68-75): `mask = 0`, an empty scratch buffer, then one pass over
`self.chunk.sections.items()`.  A section is represented by its packed
block payload: `Buffer.pack_chunk_section_blocks` (defined in
`pymine/types/buffer.py`, which is not among the sources) is per the
spec an opaque pre-packed byte blob, so the payload bytes stand directly
for its output. -/
def encode_sections (sections : List (Int × List Nat)) : Nat × List Nat :=
  sections.foldl encode_sections_step (0, [])

/-- Modelled from the spec: the `Chunk` type of `pymine/types/chunk.py`
is not among the sources; per the spec a chunk column owns an ordered
mapping from vertical section index (signed, sparse) to section, which
we model as an association list from index to packed payload whose keys
are strictly increasing. -/
abbrev ChunkSections (sections : List (Int × List Nat)) : Prop :=
  List.Pairwise (fun a b => a.1 < b.1) sections

/-- A Python class attribute dictionary: attribute name to value, a value
being `none` for Python `None` and `some n` for an integer constant (the
only attribute types involved in the packet classes). -/
abbrev ClassDict := List (String × Option Int)

/-- Class attributes of `Packet` (`src/types/packet.py`, lines 13-14):
`id_ = None` and `to = None`. -/
def packet_class_dict : ClassDict := [("id_", none), ("to", none)]

/-- Class attributes of `PlayUnloadChunk` (`chunk.py`, lines 35-36):
`id = 0x1C` and `to = 1` (note the attribute is named `id`, not `id_`). -/
def play_unload_chunk_dict : ClassDict := [("id", some 0x1C), ("to", some 1)]

/-- Class attributes of `PlayChunkData` (`chunk.py`, lines 58-59):
`id = 0x20` and `to = 1`. -/
def play_chunk_data_dict : ClassDict := [("id", some 0x20), ("to", some 1)]

/-- Class attributes of `PlayUpdateLight` (`chunk.py`, lines 96-97):
`id = 0x23` and `to = 1`. -/
def play_update_light_dict : ClassDict := [("id", some 0x23), ("to", some 1)]

/-- Python class-attribute lookup along the method resolution order: the
first class dictionary binding the name wins; `none` when no class binds
it (an `AttributeError`). -/
def class_getattr : List ClassDict → String → Option (Option Int)
  | [], _ => none
  | d :: rest, n =>
    match d.lookup n with
    | some v => some v
    | none => class_getattr rest n

/-- Method resolution order of `PlayUnloadChunk`: its own attributes,
then `Packet`'s. -/
def play_unload_chunk_mro : List ClassDict :=
  [play_unload_chunk_dict, packet_class_dict]

/-- Method resolution order of `PlayChunkData`. -/
def play_chunk_data_mro : List ClassDict :=
  [play_chunk_data_dict, packet_class_dict]

/-- Method resolution order of `PlayUpdateLight`. -/
def play_update_light_mro : List ClassDict :=
  [play_update_light_dict, packet_class_dict]

/-- The instance attributes `Packet.__init__` copies onto the instance
(`src/types/packet.py`, lines 16-18).  The Python attributes are named
`id_` and `to`; the latter is spelled `to_` here because `to` is
reserved. -/
structure PacketInstance where
  id_ : Option Int
  to_ : Option Int
deriving DecidableEq, Repr

/-- `Packet.__init__` (`src/types/packet.py`, lines 16-18):
`self.id_ = self.__class__.id_` and `self.to = self.__class__.to`,
each resolved through the class attribute lookup; `none` models the
`AttributeError` raised when the lookup fails (never the case here:
the base class defines both names). -/
def packet_init (mro : List ClassDict) : Option PacketInstance :=
  match class_getattr mro "id_", class_getattr mro "to" with
  | some i, some t => some ⟨i, t⟩
  | _, _ => none

/-- One-step unfolding equation for the `unpack_string` loop. -/
theorem unpack_string_loop_succ (fuel : Nat) (q : QueryBuffer) (out : List Nat) :
    QueryBuffer.unpack_string_loop (fuel + 1) q out =
      if (q.read (some 1)).1 = [0] then some (out, (q.read (some 1)).2)
      else QueryBuffer.unpack_string_loop fuel (q.read (some 1)).2 (out ++ (q.read (some 1)).1) :=
  rfl

/-- If the bytes remaining at `p` are `s ++ 0 :: rest` with no null byte in
`s`, the `unpack_string` loop stops at the first null after `s.length + 1`
iterations, having collected exactly `s` and consumed the terminator. -/
theorem unpack_string_loop_spec (s : List Nat) :
    0 ∉ s →
    ∀ (rest out buf : List Nat) (p : Nat), buf.drop p = s ++ 0 :: rest →
    QueryBuffer.unpack_string_loop (s.length + 1) ⟨buf, p⟩ out =
      some (out ++ s, ⟨buf, p + s.length + 1⟩) := by
  induction s with
  | nil =>
    intro _ rest out buf p h
    simp [QueryBuffer.unpack_string_loop, QueryBuffer.read, h]
  | cons c s ih =>
    intro h0 rest out buf p h
    have hc : c ≠ 0 := fun hc => h0 (by simp [hc])
    have hs : 0 ∉ s := fun hm => h0 (List.mem_cons_of_mem _ hm)
    have hdrop : buf.drop (p + 1) = s ++ 0 :: rest := by
      rw [← List.drop_drop, h]; rfl
    have hread : QueryBuffer.read ⟨buf, p⟩ (some 1) = ([c], ⟨buf, p + 1⟩) := by
      simp [QueryBuffer.read, h]
    simp only [List.length_cons]
    rw [unpack_string_loop_succ]
    simp only [hread]
    rw [if_neg (show ¬([c] = [0]) by simp [hc])]
    rw [ih hs rest (out ++ [c]) buf (p + 1) hdrop]
    have h1 : out ++ [c] ++ s = out ++ c :: s := by simp
    have h2 : p + 1 + s.length + 1 = p + (s.length + 1) + 1 := by omega
    rw [h1, h2]

/-- If no null byte remains at or after position `p`, the `unpack_string`
loop never stops: whatever the fuel, it is exhausted without a result
(each `read(1)` past the end returns `b""`, which is never `b"\x00"`,
while the position keeps growing). -/
theorem unpack_string_loop_stuck :
    ∀ (fuel : Nat) (buf out : List Nat) (p : Nat), 0 ∉ buf.drop p →
    QueryBuffer.unpack_string_loop fuel ⟨buf, p⟩ out = none := by
  intro fuel
  induction fuel with
  | zero => intro buf out p _; rfl
  | succ fuel ih =>
    intro buf out p h
    rw [unpack_string_loop_succ]
    cases hb : buf.drop p with
    | nil =>
      have hread : QueryBuffer.read ⟨buf, p⟩ (some 1) = ([], ⟨buf, p + 1⟩) := by
        simp [QueryBuffer.read, hb]
      simp only [hread]
      rw [if_neg (by simp)]
      exact ih buf (out ++ []) (p + 1)
        (by rw [← List.drop_drop, hb]; simp)
    | cons c t =>
      have h' : 0 ∉ c :: t := hb ▸ h
      have hc : c ≠ 0 := fun hc => h' (by simp [hc])
      have hread : QueryBuffer.read ⟨buf, p⟩ (some 1) = ([c], ⟨buf, p + 1⟩) := by
        simp [QueryBuffer.read, hb]
      simp only [hread]
      rw [if_neg (by simp [hc])]
      refine ih buf (out ++ [c]) (p + 1) ?hnext
      rw [← List.drop_drop, hb]
      simp only [List.drop_succ_cons, List.drop_zero]
      exact fun hm => h' (List.mem_cons_of_mem _ hm)

/-- C8: for every Latin-1 string (all code points < 256) with no embedded
null, decoding the encoding returns the original string: `unpack_string`
(run with enough fuel for the loop to reach the terminator, namely one
iteration per character plus one for the terminator) applied to
`pack_string s` yields exactly `s`, the terminator excluded. -/
theorem unpack_string_pack_string (s : List Nat)
    (h : ∀ c ∈ s, c < 256 ∧ c ≠ 0) :
    QueryBuffer.unpack_string (s.length + 1) ⟨QueryBuffer.pack_string s, 0⟩ =
      some (s, ⟨QueryBuffer.pack_string s, s.length + 1⟩) := by
  have h0 : 0 ∉ s := fun hm => (h 0 hm).2 rfl
  have hspec := unpack_string_loop_spec s h0 [] [] (QueryBuffer.pack_string s) 0
    (by simp [QueryBuffer.pack_string])
  simpa [QueryBuffer.unpack_string] using hspec

/-- Witness for C8 at the concrete string "hi" (code points 104, 105). -/
theorem unpack_string_pack_string_witness :
    (∀ c ∈ [104, 105], c < 256 ∧ c ≠ 0) ∧
    QueryBuffer.unpack_string (([104, 105] : List Nat).length + 1)
        ⟨QueryBuffer.pack_string [104, 105], 0⟩ =
      some ([104, 105], ⟨QueryBuffer.pack_string [104, 105], ([104, 105] : List Nat).length + 1⟩) :=
  ⟨by decide, unpack_string_pack_string [104, 105] (by decide)⟩

/-- C3: on the buffer `b"ab"` (bytes 97, 98), which contains no null
terminator, the `unpack_string` loop never finishes, whatever iteration
bound it is given: past the end every `read(1)` yields `b""`, which never
equals `b"\x00"`, so the source's `while True` loop runs forever instead
of raising an `UnterminatedString` error. -/
theorem unpack_string_unterminated_loops_forever (fuel : Nat) :
    QueryBuffer.unpack_string fuel ⟨[97, 98], 0⟩ = none :=
  unpack_string_loop_stuck fuel [97, 98] [] 0 (by decide)

/-- C2: on a buffer holding one byte, `read(2)` returns the single
remaining byte (fewer than the two requested) without any failure, and
still advances the position by 2.  The code has no `BufferUnderrun`:
the slice `self.buf[self.pos : self.pos + length]` silently truncates
and the `finally` block advances `pos` unconditionally. -/
theorem read_short_slice_no_failure :
    (QueryBuffer.read ⟨[97], 0⟩ (some 2)) = ([97], ⟨[97], 2⟩) ∧
    ([97] : List Nat).length < 2 := by
  constructor
  · rfl
  · decide

/-- C9: on a two-byte buffer with `pos = 1`, `read()` (length omitted)
returns the remaining byte but sets `pos` to `1 + 2 = 3`, beyond the end
of the buffer: the source sets `length = len(self.buf)` and the `finally`
block runs `self.pos += length`, so the position advances by the whole
buffer length instead of to the end. -/
theorem read_all_overshoots_position :
    (QueryBuffer.read ⟨[10, 20], 1⟩ none) = ([20], ⟨[10, 20], 3⟩) ∧
    ([10, 20] : List Nat).length < 3 := by
  constructor
  · rfl
  · decide

/-- C4: decoding the exact two bytes produced by `pack_magic` succeeds:
`b"\xFE\xFD"` read as big-endian 16-bit is `0xFE * 256 + 0xFD = 65277`,
which is precisely the constant `unpack_magic` compares against, so
encode and decode agree on the canonical value `65277`. -/
theorem unpack_magic_of_pack_magic :
    QueryBuffer.unpack_magic ⟨QueryBuffer.pack_magic, 0⟩ =
      some (65277, ⟨QueryBuffer.pack_magic, 2⟩) := by
  rfl

/-- C10: `Packet.__init__` copies only the class attributes named `id_`
and `to` onto the instance, while the chunk packet subclasses declare
their packet id under the attribute name `id`; so every constructed
`PlayUnloadChunk`, `PlayChunkData` or `PlayUpdateLight` instance has
`id_ = None` (the value inherited from `Packet`) even though each class
dictionary carries its concrete `id` constant. -/
theorem packet_id_attribute_mismatch :
    packet_init play_unload_chunk_mro = some ⟨none, some 1⟩ ∧
    packet_init play_chunk_data_mro = some ⟨none, some 1⟩ ∧
    packet_init play_update_light_mro = some ⟨none, some 1⟩ ∧
    class_getattr play_unload_chunk_mro "id" = some (some 0x1C) ∧
    class_getattr play_chunk_data_mro "id" = some (some 0x20) ∧
    class_getattr play_update_light_mro "id" = some (some 0x23) :=
  ⟨rfl, rfl, rfl, rfl, rfl, rfl⟩

/-- Overwriting a key in the challenge cache makes its lookup return the
new value. -/
theorem lookup_dict_set (k : Nat) (v : Int) :
    ∀ l : List (Nat × Int), List.lookup k (dict_set l k v) = some v := by
  intro l
  induction l with
  | nil => simp [dict_set, List.lookup]
  | cons p t ih =>
    obtain ⟨k', v'⟩ := p
    by_cases h : k' = k
    · rw [dict_set, if_pos h]
      simp [List.lookup]
    · rw [dict_set, if_neg h]
      have hb : (k == k') = false := by
        simp [Ne.symm h]
      simp [List.lookup, hb, ih]

/-- C7: on any datagram parsing as a type-9 handshake, the handler
unconditionally stores the received token for the sender (overwriting a
prior session if any, as the lookup equation confirms) and responds with
the type byte 9, the echoed session id, and the challenge token rendered
as a null-terminated decimal string. -/
theorem handle_packet_handshake (challenge_cache : List (Nat × Int))
    (remote : Nat) (info : ServerInfo) (data : List Nat)
    (session_id challenge_token : Int) (q : QueryBuffer)
    (hp : parse_request data = some (9, session_id, challenge_token, q)) :
    handle_packet challenge_cache remote info data =
      (dict_set challenge_cache remote challenge_token,
       some ([9] ++ QueryBuffer.pack_int32 session_id ++
             (str_int challenge_token ++ [0]))) ∧
    List.lookup remote (dict_set challenge_cache remote challenge_token) =
      some challenge_token := by
  constructor
  · have hb : QueryBuffer.pack_byte 9 = [9] := by decide
    simp [handle_packet, hp, QueryBuffer.pack_string, hb]
  · exact lookup_dict_set remote challenge_token challenge_cache

/-- Witness for C7: a handshake carrying token 42 from remote 2,
which already holds a session with token 5; the session is overwritten
and the echo packet carries 42 as a decimal string. -/
theorem handle_packet_handshake_witness :
    parse_request [0xFE, 0xFD, 9, 0, 0, 0, 3, 0, 0, 0, 42] =
      some (9, 3, 42, QueryBuffer.mk [0xFE, 0xFD, 9, 0, 0, 0, 3, 0, 0, 0, 42] 11) ∧
    (handle_packet [(2, 5)] 2 demo_info [0xFE, 0xFD, 9, 0, 0, 0, 3, 0, 0, 0, 42] =
      (dict_set [(2, 5)] 2 42,
       some ([9] ++ QueryBuffer.pack_int32 3 ++ (str_int 42 ++ [0]))) ∧
     List.lookup 2 (dict_set [(2, 5)] 2 42) = some 42) :=
  ⟨by decide,
   handle_packet_handshake [(2, 5)] 2 demo_info _ 3 42
     (QueryBuffer.mk [0xFE, 0xFD, 9, 0, 0, 0, 3, 0, 0, 0, 42] 11) (by decide)⟩

/-- C5: on any datagram parsing as a type-0 stat request whose token
(0 when absent) differs from the token stored for the sender (in
particular when no session is stored at all, since a missing entry never
equals an integer), the handler emits no datagram and leaves the
challenge cache unchanged. -/
theorem handle_packet_stat_bad_token (challenge_cache : List (Nat × Int))
    (remote : Nat) (info : ServerInfo) (data : List Nat)
    (session_id challenge_token : Int) (q : QueryBuffer)
    (hp : parse_request data = some (0, session_id, challenge_token, q))
    (hn : List.lookup remote challenge_cache ≠ some challenge_token) :
    handle_packet challenge_cache remote info data = (challenge_cache, none) := by
  simp [handle_packet, hp, hn]

/-- Witness for C5: a stat request with an absent challenge token
(decoded as 0) from remote 1, whose stored session token is 5; the
handler drops it and the cache keeps its single entry. -/
theorem handle_packet_stat_bad_token_witness :
    parse_request [0xFE, 0xFD, 0, 0, 0, 0, 1] =
      some (0, 1, 0, QueryBuffer.mk [0xFE, 0xFD, 0, 0, 0, 0, 1] 7) ∧
    List.lookup 1 [((1 : Nat), (5 : Int))] ≠ some 0 ∧
    handle_packet [(1, 5)] 1 demo_info [0xFE, 0xFD, 0, 0, 0, 0, 1] =
      ([(1, 5)], none) :=
  ⟨by decide, by decide,
   handle_packet_stat_bad_token [(1, 5)] 1 demo_info _ 1 0
     (QueryBuffer.mk [0xFE, 0xFD, 0, 0, 0, 0, 1] 7) (by decide) (by decide)⟩

set_option maxRecDepth 4096 in
/-- C6 (divergence at the failing input): a type-0 stat request with the
valid stored token 0 followed by exactly four zero bytes does select the
full-stat response, whose body carries the splitnum padding marker — but
the response does not end in a zero-length player section: its last 7
bytes after the player padding are `b"Penis\x00\x00"`, a player entry
named "Penis" plus terminator, where a zero-length player section would
be the single byte `b"\x00"`. -/
theorem handle_packet_full_stat_not_empty_players :
    handle_packet [(1, 0)] 1 demo_info
        [0xFE, 0xFD, 0, 0, 0, 0, 5, 0, 0, 0, 0, 0, 0, 0, 0] =
      ([(1, 0)], some (full_stat 0 5 demo_info)) ∧
    ((full_stat 0 5 demo_info).drop 5).take 11 = splitnum_padding ∧
    (full_stat 0 5 demo_info).drop ((full_stat 0 5 demo_info).length - 7) =
      player_padding.drop 10 ++ player_section ∧
    player_section ≠ [0] := by
  refine ⟨rfl, rfl, rfl, by decide⟩

/-- Bit `i` of the mask accumulated by the section loop is set exactly
when it was set in the initial accumulator or some section is stored at
index `i` (negative indices can never equal the natural `i`). -/
theorem encode_sections_foldl_testBit (sections : List (Int × List Nat)) :
    ∀ (m : Nat) (b : List Nat) (i : Nat),
      ((List.foldl encode_sections_step (m, b) sections).1).testBit i ↔
        (m.testBit i ∨ ∃ s, ((i : Int), s) ∈ sections) := by
  induction sections with
  | nil => intro m b i; simp
  | cons p t ih =>
    intro m b i
    obtain ⟨y, s⟩ := p
    simp only [List.foldl_cons]
    by_cases hy : 0 ≤ y
    · simp only [encode_sections_step, if_pos hy, ih]
      have h2 : ((1 : Nat) <<< y.toNat) = 2 ^ y.toNat := by
        rw [Nat.shiftLeft_eq, one_mul]
      have hiy : (y.toNat = i) ↔ ((i : Int) = y) := by
        constructor <;> intro h <;> omega
      simp only [Nat.testBit_or, h2, Nat.testBit_two_pow, Bool.or_eq_true,
        decide_eq_true_eq, List.mem_cons, Prod.mk.injEq]
      constructor
      · rintro ((hm | hbit) | ⟨s', hs'⟩)
        · exact Or.inl hm
        · exact Or.inr ⟨s, Or.inl ⟨hiy.mp hbit, rfl⟩⟩
        · exact Or.inr ⟨s', Or.inr hs'⟩
      · rintro (hm | ⟨s', (⟨h1, h2'⟩ | hs')⟩)
        · exact Or.inl (Or.inl hm)
        · exact Or.inl (Or.inr (hiy.mpr h1))
        · exact Or.inr ⟨s', hs'⟩
    · simp only [encode_sections_step, if_neg hy, ih]
      have hiy : ¬ ((i : Int) = y) := by omega
      simp only [List.mem_cons, Prod.mk.injEq]
      constructor
      · rintro (hm | ⟨s', hs'⟩)
        · exact Or.inl hm
        · exact Or.inr ⟨s', Or.inr hs'⟩
      · rintro (hm | ⟨s', (⟨h1, _⟩ | hs')⟩)
        · exact Or.inl hm
        · exact absurd h1 hiy
        · exact Or.inr ⟨s', hs'⟩

/-- The scratch buffer accumulated by the section loop is the initial
buffer followed by the payloads of the sections with index ≥ 0, in
iteration order. -/
theorem encode_sections_foldl_snd (sections : List (Int × List Nat)) :
    ∀ (m : Nat) (b : List Nat),
      (List.foldl encode_sections_step (m, b) sections).2 =
        b ++ ((sections.filter (fun p => decide (0 ≤ p.1))).map Prod.snd).flatten := by
  induction sections with
  | nil => intro m b; simp
  | cons p t ih =>
    intro m b
    obtain ⟨y, s⟩ := p
    by_cases hy : 0 ≤ y
    · simp only [List.foldl_cons, encode_sections_step, if_pos hy]
      rw [ih]
      simp [List.filter_cons, hy, List.append_assoc]
    · simp only [List.foldl_cons, encode_sections_step, if_neg hy]
      rw [ih]
      simp [List.filter_cons, hy]

/-- C1: for a chunk whose populated sections form the spec's ordered
mapping (strictly increasing indices), the encoder's bitmask has exactly
the bits of the present indices ≥ 0 set (indices below 0 contribute no
bit), and the scratch buffer is the concatenation of the payloads of the
sections with index ≥ 0 taken in ascending index order — the same order
as the mask's bits. -/
theorem chunk_mask_and_section_order (sections : List (Int × List Nat))
    (hs : ChunkSections sections) :
    (∀ i : Nat, ((encode_sections sections).1).testBit i ↔
      ∃ s, ((i : Int), s) ∈ sections) ∧
    (encode_sections sections).2 =
      ((sections.filter (fun p => decide (0 ≤ p.1))).map Prod.snd).flatten ∧
    List.Pairwise (· < ·)
      ((sections.filter (fun p => decide (0 ≤ p.1))).map Prod.fst) := by
  refine ⟨?_, ?_, ?_⟩
  · intro i
    have h := encode_sections_foldl_testBit sections 0 [] i
    simpa [encode_sections, Nat.zero_testBit] using h
  · have h := encode_sections_foldl_snd sections 0 []
    simpa [encode_sections] using h
  · have h1 : List.Pairwise (fun a b => a.1 < b.1)
        (sections.filter (fun p => decide (0 ≤ p.1))) :=
      hs.sublist (List.filter_sublist sections)
    rw [List.pairwise_map]
    exact h1

/-- Witness for C1 on the chunk sections {-1, 0, 2}: the index -1 is
outside the mask, bits 0 and 2 are set, and the buffer lists the payloads
of sections 0 and 2 in that ascending order. -/
theorem chunk_mask_and_section_order_witness :
    ChunkSections [(-1, [9]), (0, [1, 2]), (2, [3])] ∧
    ((∀ i : Nat, ((encode_sections [(-1, [9]), (0, [1, 2]), (2, [3])]).1).testBit i ↔
        ∃ s, ((i : Int), s) ∈ [(-1, [9]), (0, [1, 2]), (2, [3])]) ∧
     (encode_sections [(-1, [9]), (0, [1, 2]), (2, [3])]).2 =
       (([(-1, [9]), (0, [1, 2]), (2, [3])].filter
           (fun p => decide (0 ≤ p.1))).map Prod.snd).flatten ∧
     List.Pairwise (· < ·)
       (([(-1, [9]), (0, [1, 2]), (2, [3])].filter
           (fun p => decide (0 ≤ p.1))).map Prod.fst)) :=
  ⟨by decide, chunk_mask_and_section_order [(-1, [9]), (0, [1, 2]), (2, [3])] (by decide)⟩
